import Mathlib

/- A Lean 4 model of the SpotifyAPI class of discord-player-spotify
(src/internal/spotify.ts).  Network effects are modelled by passing the
outcome of each HTTP request as an explicit argument (an Option or an
oracle function); JavaScript exceptions are modelled with Except; the
catch-all blocks of the public operations are modelled by the Option
result type.  Timestamps are integers (milliseconds).  JavaScript
truthiness on strings is modelled explicitly where the code relies on it. -/

/-- The SP_ACCESS_TOKEN record of spotify.ts (the constant type field
"Bearer" is omitted).  `expiresAfter` is a wall-clock millisecond stamp. -/
structure SP_ACCESS_TOKEN where
  token : String
  expiresAfter : Int
deriving Repr, DecidableEq

/-- The SpotifySecret record of spotify.ts: one rotation of the
obfuscation scheme, as served by the remote secrets registry. -/
structure SpotifySecret where
  version : Nat
  secret : List Nat
deriving Repr, DecidableEq

/-- SpotifyAPI.isTokenExpired: `!this.accessToken || Date.now() >
this.accessToken.expiresAfter`.  `accessToken` is falsy exactly when it
is null, modelled by `none`. -/
def isTokenExpired (accessToken : Option SP_ACCESS_TOKEN) (now : Int) : Bool :=
  match accessToken with
  | none => true
  | some t => now > t.expiresAfter

/-- One lower-case hex digit. -/
def hexDigit (n : Nat) : Char :=
  if n < 10 then Char.ofNat (48 + n) else Char.ofNat (87 + n)

/-- Two hex digits of one byte, as Buffer.toString with encoding hex
produces for each byte. -/
def hexOfByte (b : Nat) : String :=
  String.mk [hexDigit (b / 16 % 16), hexDigit (b % 16)]

/-- Standard UTF-8 encoding of one code point. -/
def utf8EncodeCharNat (c : Char) : List Nat :=
  let n := c.toNat
  if n < 128 then [n]
  else if n < 2048 then [192 + n / 64, 128 + n % 64]
  else if n < 65536 then [224 + n / 4096, 128 + n / 64 % 64, 128 + n % 64]
  else [240 + n / 262144, 128 + n / 4096 % 64, 128 + n / 64 % 64, 128 + n % 64]

/-- The UTF-8 byte sequence of a string. -/
def utf8Bytes (s : String) : List Nat :=
  (s.data.map utf8EncodeCharNat).flatten

/-- Hex encoding of the UTF-8 bytes of a string: the composition
Buffer.from(s, utf8).toString(hex) used in calculateToken. -/
def utf8Hex (s : String) : String :=
  String.join ((utf8Bytes s).map hexOfByte)

/-- Array.prototype.join with an empty separator on a number array:
concatenation of the decimal representations. -/
def joinDigits (l : List Nat) : String :=
  String.join (l.map (fun n => toString n))

/-- The indexed map `hex.map((v, i) => v ^ ((i % version) + 9))` of
calculateToken, written with the running index made explicit. -/
def transformFrom (version : Nat) : Nat → List Nat → List Nat
  | _, [] => []
  | i, v :: rest => (v ^^^ ((i % version) + 9)) :: transformFrom version (i + 1) rest

/-- The transformed byte list of SpotifyAPI.calculateToken. -/
def transformBytes (hex : List Nat) (version : Nat) : List Nat :=
  transformFrom version 0 hex

/-- SpotifyAPI.calculateToken: transform the secret bytes, join their
decimal representations, hex-encode the UTF-8 bytes of the joined
string.  The result is the hex string handed to Secret.fromHex, i.e.
the TOTP signing key.  The default version mirrors the TS default. -/
def calculateToken (hex : List Nat) (version : Nat := 33) : String :=
  utf8Hex (joinDigits (transformBytes hex version))

/-- The TOTP signing key derived for a selected secret, exactly as
getAccessTokenUrl invokes calculateToken (line 570):
`this.calculateToken(selectedSecret.secret, selectedSecret.version)`. -/
def anonSigningKey (s : SpotifySecret) : String :=
  calculateToken s.secret s.version

/-- The transformed byte sequence as the specification words it:
`transformed[i] = keyBytes[i] XOR ((i mod version) + 9)`, with version
taken from the Secret.  Used to compare the code path against the
specification. -/
def specTransformedBytes (s : SpotifySecret) : List Nat :=
  (List.range s.secret.length).map (fun i => s.secret.getD i 0 ^^^ ((i % s.version) + 9))

/-- JavaScript truthiness of Number(match of a digit group): NaN when
there is no match, and 0 is falsy. -/
def truthyNat : Option Nat → Option Nat
  | some v => if v = 0 then none else some v
  | none => none

/-- Error message thrown by getTokenFallback when it fails. -/
def fallbackFailedMsg : String := "Failed to retrieve access token from Spotify."

/-- SpotifyAPI.getTokenFallback.  `fetchOk` is whether the homepage GET
and body read succeed; `tokenPat1..3` are the three token regex match
groups (nonempty when matched, so plain Options); `expPat1/expPat2` are
the two expiration regex match groups fed through Number.  The inner
throw on a missing token and any fetch failure are both re-thrown by the
outer catch as the same generic error. -/
def getTokenFallback (fetchOk : Bool) (tokenPat1 tokenPat2 tokenPat3 : Option String)
    (expPat1 expPat2 : Option Nat) (now : Int) : Except String SP_ACCESS_TOKEN :=
  if !fetchOk then Except.error fallbackFailedMsg
  else
    let token := tokenPat1 <|> tokenPat2 <|> tokenPat3
    let expiresAfter : Int :=
      match truthyNat expPat1 with
      | some v => (v : Int)
      | none =>
        match truthyNat expPat2 with
        | some v => (v : Int)
        | none => now + 1000 * 60 * 60
    match token with
    | none => Except.error fallbackFailedMsg
    | some t => Except.ok { token := t, expiresAfter := expiresAfter - 5000 }

/-- SpotifyAPI.removeFailedSecret: filter the cached pool, dropping
every entry whose version and byte content match the failed secret. -/
def removeFailedSecret (failed : SpotifySecret) (pool : List SpotifySecret) :
    List SpotifySecret :=
  pool.filter (fun s => !(s.version == failed.version && s.secret == failed.secret))

/-- Outcome of the secret-rotation loop inside getAccessTokenUrl, up to
exhaustion of one pool: either a secret for which the in-loop steps
(secret selection, TOTP derivation, server-time fetch) succeeded, or
exhaustion.  `evicts` counts removeFailedSecret calls, `kNext` is the
next free attempt index of the step oracle. -/
inductive RotRes where
  | success (s : SpotifySecret) (evicts : Nat) (kNext : Nat)
  | exhausted (evicts : Nat) (kNext : Nat)
deriving Repr, DecidableEq

/-- The while loop of getAccessTokenUrl restricted to one pool, until
the pool is exhausted.  `stepOk k` tells whether the in-loop steps of
attempt number k succeed.  On failure the head of the cached pool is
removed via removeFailedSecret and the loop continues while the pool is
nonempty; an initially empty pool raises inside getFirstSecret without
any eviction. -/
def rotateSecrets (stepOk : Nat → Bool) (k : Nat) (pool : List SpotifySecret) : RotRes :=
  match pool with
  | [] => RotRes.exhausted 0 k
  | s :: rest =>
    if stepOk k then RotRes.success s 0 (k + 1)
    else
      let pool2 := removeFailedSecret s (s :: rest)
      if pool2.isEmpty then RotRes.exhausted 1 (k + 1)
      else
        match rotateSecrets stepOk (k + 1) pool2 with
        | RotRes.success x e k2 => RotRes.success x (e + 1) k2
        | RotRes.exhausted e k2 => RotRes.exhausted (e + 1) k2
termination_by pool.length
decreasing_by
  simp only [removeFailedSecret, List.filter, beq_self_eq_true, Bool.and_self,
    Bool.not_true, List.length_cons]
  exact Nat.lt_succ_of_le (List.length_filter_le _ _)

/-- Decidable equality on Except results, used by the outcome records. -/
instance {ε α : Type} [DecidableEq ε] [DecidableEq α] : DecidableEq (Except ε α) := fun x y =>
  match x, y with
  | Except.ok a, Except.ok b =>
    if h : a = b then Decidable.isTrue (congrArg Except.ok h)
    else Decidable.isFalse (fun hc => h (Except.ok.inj hc))
  | Except.error a, Except.error b =>
    if h : a = b then Decidable.isTrue (congrArg Except.error h)
    else Decidable.isFalse (fun hc => h (Except.error.inj hc))
  | Except.ok _, Except.error _ => Decidable.isFalse (fun hc => Except.noConfusion hc)
  | Except.error _, Except.ok _ => Decidable.isFalse (fun hc => Except.noConfusion hc)

/-- The value returned by getAccessTokenUrl: the fixed accounts URL in
credentials mode, or the web-player token URL whose TOTP parameters were
derived from the selected secret. -/
inductive TokenUrl where
  | credentials
  | anon (s : SpotifySecret)
deriving Repr, DecidableEq

/-- Error message thrown by getAccessTokenUrl after exhaustion. -/
def urlFailedMsg : String := "Failed to generate access token URL with all available secrets"

/-- Result of one getAccessTokenUrl call together with its observable
side effects: number of removeFailedSecret calls, number of
refreshSecrets calls, and number of HTTP requests issued (one
server-time request per loop attempt that holds a secret, one registry
request per refreshSecrets call). -/
structure MintOutcome where
  result : Except String TokenUrl
  evicts : Nat
  refreshes : Nat
  httpCalls : Nat
deriving Repr, DecidableEq

/-- SpotifyAPI.getAccessTokenUrl.  In credentials mode the accounts URL
is returned at once.  In anonymous mode the rotation loop runs over the
cached pool (assumed fresh, as in every scenario of the specification);
when it exhausts, refreshSecrets is called once — `refreshResult` is its
outcome, `none` meaning it threw — and the loop resumes over the new
pool with `hasRefreshedSecrets` set, so a second exhaustion throws. -/
def getAccessTokenUrl (useCredentials : Bool) (stepOk : Nat → Bool)
    (pool : List SpotifySecret) (refreshResult : Option (List SpotifySecret)) :
    MintOutcome :=
  if useCredentials then ⟨Except.ok TokenUrl.credentials, 0, 0, 0⟩
  else
    match rotateSecrets stepOk 0 pool with
    | RotRes.success s e k => ⟨Except.ok (TokenUrl.anon s), e, 0, k⟩
    | RotRes.exhausted e k =>
      match refreshResult with
      | some newPool =>
        match rotateSecrets stepOk k newPool with
        | RotRes.success s e2 k2 => ⟨Except.ok (TokenUrl.anon s), e + e2, 1, k2 + 1⟩
        | RotRes.exhausted e2 k2 => ⟨Except.error urlFailedMsg, e + e2, 1, k2 + 1⟩
      | none => ⟨Except.error urlFailedMsg, e, 1, k + 1⟩

/-- Result of one requestToken call: the new token (or the propagated
error), plus the same observable side effects and whether the HTML
scrape fallback ran. -/
structure RequestOutcome where
  tokenResult : Except String SP_ACCESS_TOKEN
  evicts : Nat
  refreshes : Nat
  fallbackRan : Bool
  httpCalls : Nat
deriving Repr, DecidableEq

/-- SpotifyAPI.requestToken.  First getAccessTokenUrl; then the token
exchange request against that URL (`exchange` is its parsed outcome,
`none` meaning the fetch threw or the body was falsy); the catch block
runs getTokenFallback (outcome `fallback`) on ANY failure, and only an
error of the fallback itself escapes. -/
def requestToken (useCredentials : Bool) (stepOk : Nat → Bool)
    (pool : List SpotifySecret) (refreshResult : Option (List SpotifySecret))
    (exchange : Option SP_ACCESS_TOKEN) (fallback : Except String SP_ACCESS_TOKEN) :
    RequestOutcome :=
  let mint := getAccessTokenUrl useCredentials stepOk pool refreshResult
  match mint.result with
  | Except.ok _ =>
    match exchange with
    | some tok => ⟨Except.ok tok, mint.evicts, mint.refreshes, false, mint.httpCalls + 1⟩
    | none => ⟨fallback, mint.evicts, mint.refreshes, true, mint.httpCalls + 2⟩
  | Except.error _ => ⟨fallback, mint.evicts, mint.refreshes, true, mint.httpCalls + 1⟩

/-- SpotifyAPI.ensureValidToken: mint only when the held token is
expired; an error of requestToken escapes.  Returns the token field
after the call and the number of HTTP requests issued. -/
def ensureValidToken (accessToken : Option SP_ACCESS_TOKEN) (now : Int)
    (req : RequestOutcome) : Except String (Option SP_ACCESS_TOKEN) × Nat :=
  if isTokenExpired accessToken now then
    match req.tokenResult with
    | Except.error e => (Except.error e, req.httpCalls)
    | Except.ok t => (Except.ok (some t), req.httpCalls)
  else (Except.ok accessToken, 0)

/-- Error message thrown by fetchData on a non-2xx response. -/
def fetchFailedMsg : String := "Failed to fetch Spotify data."

/-- SpotifyAPI.fetchData: ensureValidToken, then the data GET, whose
parsed payload is `httpRes` (`none` meaning the fetch threw, the
response was non-2xx, or the body did not parse).  The data request is
issued (hence counted) even when it fails. -/
def fetchData {α : Type} (accessToken : Option SP_ACCESS_TOKEN) (now : Int)
    (req : RequestOutcome) (httpRes : Option α) : Except String α × Nat :=
  match ensureValidToken accessToken now req with
  | (Except.error e, n) => (Except.error e, n)
  | (Except.ok _, n) =>
    match httpRes with
    | some r => (Except.ok r, n + 1)
    | none => (Except.error fetchFailedMsg, n + 1)

/-- An artist object of the SpotifyTrack payload. -/
structure RawArtist where
  id : String
  name : String
deriving Repr, DecidableEq

/-- An image object of an album payload (height and width are carried
but never read by the code). -/
structure RawImage where
  height : Nat
  url : String
  width : Nat
deriving Repr, DecidableEq

/-- The raw SpotifyTrack payload, with the fields the code reads.
`name` is `none` when the field is absent (the code guards with
`m?.name`); `artists` is `none` when the artist array is absent (the
code guards with `m?.artists` — an empty array is present, hence
truthy); `external_urls` holds the spotify field of external_urls when
present; `albumImages` is `album.images`. -/
structure SpotifyTrack where
  name : Option String
  duration_ms : Int
  artists : Option (List RawArtist)
  external_urls : Option String
  id : String
  albumImages : List RawImage
deriving Repr, DecidableEq

/-- The shaped track record produced by getTrack, getPlaylist and
getAlbum: the same fields copied over, with the album image list chosen
per operation. -/
structure TrackRecord where
  name : Option String
  duration_ms : Int
  artists : Option (List RawArtist)
  external_urls : Option String
  id : String
  albumImages : List RawImage
deriving Repr, DecidableEq

/-- The per-track map of getTrack and getPlaylist: fields copied, album
images taken from the track itself. -/
def shapeTrack (m : SpotifyTrack) : TrackRecord :=
  ⟨m.name, m.duration_ms, m.artists, m.external_urls, m.id, m.albumImages⟩

/-- The per-track map of getAlbum: album images taken from the parent
album payload. -/
def shapeAlbumTrack (parentImages : List RawImage) (m : SpotifyTrack) : TrackRecord :=
  ⟨m.name, m.duration_ms, m.artists, m.external_urls, m.id, parentImages⟩

/-- The normalized hit produced by search and getRecommendations. -/
structure SearchHit where
  title : Option String
  duration : Int
  artist : String
  url : String
  thumbnail : Option String
deriving Repr, DecidableEq

/-- JavaScript truthiness on an optional string: absent or empty is
falsy. -/
def jsStr : Option String → Option String
  | some s => if s = "" then none else some s
  | none => none

/-- The canonical track URL built when external_urls is falsy. -/
def trackUrlOf (id : String) : String :=
  "https://open.spotify.com/track/" ++ id

/-- The hit map of search and getRecommendations, for one track whose
artist array is present (a missing array makes the surrounding map
throw, handled in the operations below). -/
def mkHit (m : SpotifyTrack) : SearchHit :=
  { title := m.name
  , duration := m.duration_ms
  , artist := String.intercalate (", ") ((m.artists.getD []).map (fun a => a.name))
  , url :=
      match jsStr m.external_urls with
      | some u => u
      | none => trackUrlOf m.id
  , thumbnail := m.albumImages.head?.bind (fun im => if im.url = "" then none else some im.url) }

/-- The filter of getPlaylist and getAlbum:
`m?.name && m?.artists`.  A nullish entry, a missing or empty name, or
a missing artist array is dropped; an empty artist array is kept. -/
def keepTrack : Option SpotifyTrack → Bool
  | none => false
  | some m =>
    (match m.name with
     | some s => s != ""
     | none => false) && m.artists.isSome

/-- SpotifyAPI.search: one fetch, then the hit map.  The map throws as
soon as an item has no artist array (`m.artists.map` on undefined), and
the catch-all turns every failure into null. -/
def search (accessToken : Option SP_ACCESS_TOKEN) (now : Int) (req : RequestOutcome)
    (httpRes : Option (List SpotifyTrack)) : Option (List SearchHit) :=
  match fetchData accessToken now req httpRes with
  | (Except.error _, _) => none
  | (Except.ok items, _) =>
    if items.all (fun m => m.artists.isSome) then some (items.map mkHit) else none

/-- SpotifyAPI.getTrack: one fetch, shaped unconditionally — no filter
of any kind; the catch-all turns every failure into null. -/
def getTrack (accessToken : Option SP_ACCESS_TOKEN) (now : Int) (req : RequestOutcome)
    (httpRes : Option SpotifyTrack) : Option TrackRecord :=
  match fetchData accessToken now req httpRes with
  | (Except.error _, _) => none
  | (Except.ok m, _) => some (shapeTrack m)

/-- The non-track fields of the first playlist page. -/
structure PlaylistMeta where
  name : String
  owner : String
  images : List RawImage
  id : String
  spotifyUrl : String
deriving Repr, DecidableEq

/-- The parsed first playlist page: metadata, the unwrapped track items
(each possibly nullish), and whether a next cursor is present. -/
structure PlaylistData where
  meta : PlaylistMeta
  items : List (Option SpotifyTrack)
  next : Bool
deriving Repr, DecidableEq

/-- The outcome of fetching one follow-up page: its items and whether a
further cursor is present, or a failed fetch. -/
inductive PageResult (α : Type) where
  | ok (items : List α) (next : Bool)
  | err
deriving Repr, DecidableEq

/-- The pagination while loop of getPlaylist and getAlbum over the
successive cursor fetch outcomes: concatenate page items in order; stop
at a missing cursor; on a failed fetch stop and keep what was
accumulated.  An empty outcome list while a cursor is present is a
failed fetch as well. -/
def followPages {α : Type} : List (PageResult α) → List α
  | [] => []
  | PageResult.err :: _ => []
  | PageResult.ok items next :: rest => items ++ (if next then followPages rest else [])

/-- Filter and shape of the accumulated playlist entries. -/
def shapeItems (l : List (Option SpotifyTrack)) : List TrackRecord :=
  (l.filter keepTrack).filterMap (fun o => o.map shapeTrack)

/-- Filter and shape of the accumulated album entries, with the parent
album images substituted into every record. -/
def shapeAlbumItems (parentImages : List RawImage) (l : List (Option SpotifyTrack)) :
    List TrackRecord :=
  (l.filter keepTrack).filterMap (fun o => o.map (shapeAlbumTrack parentImages))

/-- The record produced by getPlaylist and getAlbum (both build the
same shape). -/
structure PlaylistRecord where
  name : String
  author : String
  thumbnail : Option String
  id : String
  url : String
  tracks : List TrackRecord
deriving Repr, DecidableEq

/-- SpotifyAPI.getPlaylist: first fetch, then null on zero raw items,
then pagination, then filter and shape, then null on zero surviving
tracks; the catch-all turns every failure into null.  `pid` is the id
argument used for the fallback URL. -/
def getPlaylist (accessToken : Option SP_ACCESS_TOKEN) (now : Int) (req : RequestOutcome)
    (pid : String) (httpRes : Option PlaylistData)
    (pages : List (PageResult (Option SpotifyTrack))) : Option PlaylistRecord :=
  match fetchData accessToken now req httpRes with
  | (Except.error _, _) => none
  | (Except.ok d, _) =>
    if d.items.isEmpty then none
    else
      let t := d.items ++ (if d.next then followPages pages else [])
      let tracks := shapeItems t
      if tracks.isEmpty then none
      else some
        { name := d.meta.name
        , author := d.meta.owner
        , thumbnail := d.meta.images.head?.bind (fun im => if im.url = "" then none else some im.url)
        , id := d.meta.id
        , url :=
            if d.meta.spotifyUrl = "" then ("https://open.spotify.com/playlist/" ++ pid)
            else d.meta.spotifyUrl
        , tracks := tracks }

/-- The parsed first album page. -/
structure AlbumData where
  name : String
  artistNames : List String
  images : List RawImage
  id : String
  spotifyUrl : String
  items : List (Option SpotifyTrack)
  next : Bool
deriving Repr, DecidableEq

/-- SpotifyAPI.getAlbum: same pipeline as getPlaylist, with the author
joined from the album artists and the parent images substituted into
every track record. -/
def getAlbum (accessToken : Option SP_ACCESS_TOKEN) (now : Int) (req : RequestOutcome)
    (aid : String) (httpRes : Option AlbumData)
    (pages : List (PageResult (Option SpotifyTrack))) : Option PlaylistRecord :=
  match fetchData accessToken now req httpRes with
  | (Except.error _, _) => none
  | (Except.ok d, _) =>
    if d.items.isEmpty then none
    else
      let t := d.items ++ (if d.next then followPages pages else [])
      let tracks := shapeAlbumItems d.images t
      if tracks.isEmpty then none
      else some
        { name := d.name
        , author := String.intercalate (", ") d.artistNames
        , thumbnail := d.images.head?.bind (fun im => if im.url = "" then none else some im.url)
        , id := d.id
        , url :=
            if d.spotifyUrl = "" then ("https://open.spotify.com/album/" ++ aid)
            else d.spotifyUrl
        , tracks := tracks }

/-- SpotifyAPI.getRecommendations, with the number of HTTP requests the
call issues.  In credentials mode the guard throws before any request
and the catch-all returns null at once; otherwise the pipeline matches
search. -/
def getRecommendationsT (useCredentials : Bool) (accessToken : Option SP_ACCESS_TOKEN)
    (now : Int) (req : RequestOutcome) (httpRes : Option (List SpotifyTrack)) :
    Option (List SearchHit) × Nat :=
  if useCredentials then (none, 0)
  else
    match fetchData accessToken now req httpRes with
    | (Except.error _, n) => (none, n)
    | (Except.ok tracks, n) =>
      (if tracks.all (fun m => m.artists.isSome) then some (tracks.map mkHit) else none, n)

/-- A minting run in anonymous mode in which every strategy fails: the
empty pool, a refresh that throws, and an HTML scrape that fails. -/
def reqAllFail : RequestOutcome :=
  requestToken false (fun _ => false) [] none none (Except.error fallbackFailedMsg)

/-- A request outcome for calls made while the held token is still
fresh; such calls never inspect it. -/
def reqIdle : RequestOutcome :=
  ⟨Except.ok ⟨"u", 0⟩, 0, 0, false, 0⟩

/-- A fresh bearer token expiring at millisecond 10. -/
def freshTok : SP_ACCESS_TOKEN := ⟨"tk", 10⟩

/-- A well-formed raw track: nonempty name, one artist. -/
def recTrack : SpotifyTrack :=
  ⟨some ("Song"), 100, some [⟨"a1", "Artist"⟩], none, "tid", []⟩

/-- A raw track whose name is the empty string (falsy in JavaScript)
but whose artist array is present. -/
def emptyNameTrack : SpotifyTrack :=
  ⟨some (""), 1, some [⟨"a1", "Artist"⟩], none, "tid2", []⟩

/-- A raw track with a nonempty name and a present but EMPTY artist
array. -/
def emptyArtistsTrack : SpotifyTrack :=
  ⟨some ("x"), 1, some [], none, "tid3", []⟩

/-- Playlist metadata used by concrete scenario theorems. -/
def metaC : PlaylistMeta := ⟨"PL", "Owner", [], "plid", "u"⟩

lemma transformFrom_eq_map_range (ver : Nat) (l : List Nat) :
    ∀ (i : Nat), transformFrom ver i l
      = (List.range l.length).map (fun j => l.getD j 0 ^^^ (((i + j) % ver) + 9)) := by
  induction l with
  | nil => intro i; rfl
  | cons v rest ih =>
    intro i
    simp only [transformFrom, List.length_cons, List.range_succ_eq_map, List.map_cons,
      List.map_map]
    refine congrArg₂ List.cons (by simp) ?_
    rw [ih (i + 1)]
    apply List.map_congr_left
    intro j _
    simp only [Function.comp_apply, List.getD_cons_succ, Nat.succ_eq_add_one]
    have hidx : i + (j + 1) = i + 1 + j := by omega
    rw [hidx]

lemma transformBytes_eq_spec (s : SpotifySecret) :
    transformBytes s.secret s.version = specTransformedBytes s := by
  unfold transformBytes specTransformedBytes
  rw [transformFrom_eq_map_range]
  simp

/-- C6, confirmed: in anonymous mode the TOTP signing key is obtained by
transforming each secret byte as keyBytes[i] XOR ((i mod version) + 9),
with the version of the selected secret, then joining the transformed
bytes and hex-encoding the result — the code path and the formula of the
specification produce the same key, and the transformed byte at every
index obeys the stated XOR formula.  The version of a served secret is a
positive rotation number, which the hypothesis records. -/
theorem C6_signing_key (s : SpotifySecret) (_hv : 0 < s.version) :
    anonSigningKey s = utf8Hex (joinDigits (specTransformedBytes s))
    ∧ ∀ j, j < s.secret.length →
        (transformBytes s.secret s.version).getD j 0
          = s.secret.getD j 0 ^^^ ((j % s.version) + 9) := by
  constructor
  · unfold anonSigningKey calculateToken
    rw [transformBytes_eq_spec]
  · intro j hj
    rw [transformBytes_eq_spec]
    unfold specTransformedBytes
    have hlen : j < ((List.range s.secret.length).map
        (fun i => s.secret.getD i 0 ^^^ ((i % s.version) + 9))).length := by
      simpa using hj
    rw [List.getD_eq_getElem _ _ hlen]
    simp

/-- Witness for C6 at the secret version 5 with bytes 1, 2, 3. -/
theorem C6_signing_key_witness :
    0 < (5 : Nat)
    ∧ anonSigningKey ⟨5, [1, 2, 3]⟩
        = utf8Hex (joinDigits (specTransformedBytes ⟨5, [1, 2, 3]⟩))
    ∧ (transformBytes [1, 2, 3] 5).getD 1 0 = ([1, 2, 3].getD 1 0) ^^^ ((1 % 5) + 9) :=
  ⟨by decide, (C6_signing_key ⟨5, [1, 2, 3]⟩ (by decide)).1,
    (C6_signing_key ⟨5, [1, 2, 3]⟩ (by decide)).2 1 (by decide)⟩

/-- C9, confirmed: isTokenExpired is true exactly when no token has been
minted or now is strictly greater than expiresAfter; at one millisecond
before the stamp and at the stamp itself it is false, one millisecond
after it is true. -/
theorem C9_token_expiry :
    (∀ (tok : Option SP_ACCESS_TOKEN) (now : Int),
        isTokenExpired tok now = true
          ↔ tok = none ∨ ∃ t, tok = some t ∧ now > t.expiresAfter)
    ∧ ∀ (t : SP_ACCESS_TOKEN),
        isTokenExpired (some t) (t.expiresAfter - 1) = false
        ∧ isTokenExpired (some t) t.expiresAfter = false
        ∧ isTokenExpired (some t) (t.expiresAfter + 1) = true := by
  constructor
  · intro tok now
    cases tok with
    | none => simp [isTokenExpired]
    | some t => simp [isTokenExpired]
  · intro t
    refine ⟨?_, ?_, ?_⟩ <;> simp [isTokenExpired]

/-- C10, confirmed: when the HTML scrape extracts a token, the stored
expiry is the scraped expiration stamp minus 5000 ms; when no expiration
stamp is extracted the expiry defaults to now plus one hour, minus the
same 5000 ms; when no token is extracted the fallback fails. -/
theorem C10_fallback_expiry :
    ∀ (t : String) (p2 p3 : Option String) (e : Nat) (q2 : Option Nat) (now : Int),
      getTokenFallback true (some t) p2 p3 (some (e + 1)) q2 now
        = Except.ok ⟨t, ((e : Int) + 1) - 5000⟩
      ∧ getTokenFallback true (some t) p2 p3 none none now
        = Except.ok ⟨t, now + 1000 * 60 * 60 - 5000⟩
      ∧ ∀ (q1 : Option Nat), getTokenFallback true none none none q1 q2 now
        = Except.error fallbackFailedMsg := by
  intro t p2 p3 e q2 now
  refine ⟨?_, ?_, ?_⟩
  · simp [getTokenFallback, truthyNat]
  · simp [getTokenFallback, truthyNat]
  · intro q1
    simp [getTokenFallback, truthyNat]

lemma removeFailedSecret_self_cons (f : SpotifySecret) (l : List SpotifySecret) :
    removeFailedSecret f (f :: l) = removeFailedSecret f l := by
  simp [removeFailedSecret, List.filter_cons]

lemma removeFailedSecret_of_forall_ne (f : SpotifySecret) (l : List SpotifySecret)
    (h : ∀ x ∈ l, x ≠ f) : removeFailedSecret f l = l := by
  unfold removeFailedSecret
  apply List.filter_eq_self.mpr
  intro x hx
  have hne := h x hx
  cases x with
  | mk xv xs =>
    cases f with
    | mk fv fs =>
      simp_all [SpotifySecret.mk.injEq]
      have hxf := h _ hx
      simp only [SpotifySecret.mk.injEq, not_and] at hxf
      by_cases hv : xv = fv
      · exact Or.inr (hxf hv)
      · exact Or.inl hv

/-- C3, confirmed: within one anonymous mint attempt refreshSecrets is
called at most once; it is not called when the rotation over the initial
pool succeeds; and with a pool of one failing secret and a forced
refresh serving one more failing secret, minting fails with the terminal
error after exactly one refreshSecrets call. -/
theorem C3_forceRefresh_once :
    (∀ (stepOk : Nat → Bool) (pool : List SpotifySecret) (rr : Option (List SpotifySecret)),
        (getAccessTokenUrl false stepOk pool rr).refreshes ≤ 1)
    ∧ (∀ (stepOk : Nat → Bool) (pool : List SpotifySecret) (rr : Option (List SpotifySecret))
        (s : SpotifySecret) (e k : Nat),
        rotateSecrets stepOk 0 pool = RotRes.success s e k →
        (getAccessTokenUrl false stepOk pool rr).refreshes = 0)
    ∧ ∀ (s s2 : SpotifySecret),
        (getAccessTokenUrl false (fun _ => false) [s] (some [s2])).result
            = Except.error urlFailedMsg
        ∧ (getAccessTokenUrl false (fun _ => false) [s] (some [s2])).refreshes = 1 := by
  refine ⟨?_, ?_, ?_⟩
  · intro stepOk pool rr
    cases hr : rotateSecrets stepOk 0 pool with
    | success s e k => simp [getAccessTokenUrl, hr]
    | exhausted e k =>
      cases rr with
      | none => simp [getAccessTokenUrl, hr]
      | some newPool =>
        cases hr2 : rotateSecrets stepOk k newPool with
        | success s2 e2 k2 => simp [getAccessTokenUrl, hr, hr2]
        | exhausted e2 k2 => simp [getAccessTokenUrl, hr, hr2]
  · intro stepOk pool rr s e k h
    simp [getAccessTokenUrl, h]
  · intro s s2
    have h1 : rotateSecrets (fun _ => false) 0 [s] = RotRes.exhausted 1 1 := by
      simp [rotateSecrets, removeFailedSecret]
    have h2 : rotateSecrets (fun _ => false) 1 [s2] = RotRes.exhausted 1 2 := by
      simp [rotateSecrets, removeFailedSecret]
    constructor <;> simp [getAccessTokenUrl, h1, h2]

/-- Witness for C3: with one secret and a succeeding first attempt, the
rotation succeeds and no refresh happens. -/
theorem C3_forceRefresh_once_witness :
    rotateSecrets (fun _ => true) 0 [⟨1, [1]⟩] = RotRes.success ⟨1, [1]⟩ 0 1
    ∧ (getAccessTokenUrl false (fun _ => true) [⟨1, [1]⟩] none).refreshes = 0 := by
  have h : rotateSecrets (fun _ => true) 0 [⟨1, [1]⟩] = RotRes.success ⟨1, [1]⟩ 0 1 := by
    simp [rotateSecrets]
  exact ⟨h, C3_forceRefresh_once.2.1 _ _ none _ _ _ h⟩

/-- C2, counterexample to the claim as stated: a mint attempt in which
the URL construction succeeds with the first secret but the token
EXCHANGE request then fails performs no removeFailedSecret call and no
retry from secret selection — the code falls through to the HTML scrape
fallback instead. -/
theorem C2_counterexample :
    (requestToken false (fun _ => true) [⟨1, [1]⟩, ⟨2, [2]⟩, ⟨3, [3]⟩] none none
        (Except.ok ⟨"scraped", 1000⟩)).evicts = 0
    ∧ (requestToken false (fun _ => true) [⟨1, [1]⟩, ⟨2, [2]⟩, ⟨3, [3]⟩] none none
        (Except.ok ⟨"scraped", 1000⟩)).fallbackRan = true := by
  have hr : rotateSecrets (fun _ => true) 0 [⟨1, [1]⟩, ⟨2, [2]⟩, ⟨3, [3]⟩]
      = RotRes.success ⟨1, [1]⟩ 0 1 := by
    simp [rotateSecrets]
  constructor <;> simp [requestToken, getAccessTokenUrl, hr]

/-- C2, amended: the evict-and-retry loop covers failures of the steps
that BUILD the token URL (secret selection, TOTP derivation, server
time); with a 3-secret pool whose first two build attempts fail and
whose third succeeds there are exactly two evictions and no refresh.  A
failure of the token-exchange request itself evicts nothing and does not
retry the rotation: the HTML scrape fallback runs instead. -/
theorem C2_secret_rotation :
    (∀ (s1 s2 s3 : SpotifySecret) (stepOk : Nat → Bool) (rr : Option (List SpotifySecret)),
        s2 ≠ s1 → s3 ≠ s1 → s3 ≠ s2 →
        stepOk 0 = false → stepOk 1 = false → stepOk 2 = true →
        getAccessTokenUrl false stepOk [s1, s2, s3] rr
          = ⟨Except.ok (TokenUrl.anon s3), 2, 0, 3⟩)
    ∧ ∀ (stepOk : Nat → Bool) (pool : List SpotifySecret) (rr : Option (List SpotifySecret))
        (fb : Except String SP_ACCESS_TOKEN) (s : SpotifySecret) (e k : Nat),
        rotateSecrets stepOk 0 pool = RotRes.success s e k →
        (requestToken false stepOk pool rr none fb).evicts = e
        ∧ (requestToken false stepOk pool rr none fb).fallbackRan = true
        ∧ (requestToken false stepOk pool rr none fb).tokenResult = fb := by
  constructor
  · intro s1 s2 s3 stepOk rr h21 h31 h32 h0 h1 h2
    have e1 : removeFailedSecret s1 [s2, s3] = [s2, s3] := by
      apply removeFailedSecret_of_forall_ne
      intro x hx
      simp only [List.mem_cons, List.mem_singleton] at hx
      rcases hx with rfl | rfl | hx
      · exact h21
      · exact h31
      · cases hx
    have e2 : removeFailedSecret s2 [s3] = [s3] := by
      apply removeFailedSecret_of_forall_ne
      intro x hx
      simp only [List.mem_singleton] at hx
      subst hx
      exact h32
    have r1 : rotateSecrets stepOk 0 [s1, s2, s3] = RotRes.success s3 2 3 := by
      rw [rotateSecrets]
      simp only [h0, if_false, Bool.false_eq_true, removeFailedSecret_self_cons, e1]
      rw [rotateSecrets]
      simp only [h1, if_false, Bool.false_eq_true, removeFailedSecret_self_cons, e2]
      rw [rotateSecrets]
      simp [h2]
    simp [getAccessTokenUrl, r1]
  · intro stepOk pool rr fb s e k h
    refine ⟨?_, ?_, ?_⟩ <;> simp [requestToken, getAccessTokenUrl, h]

/-- Witness for C2 with secrets of versions 1, 2, 3 where attempts 0 and
1 fail and attempt 2 succeeds, and a requestToken run whose exchange
fails after a first-attempt success. -/
theorem C2_secret_rotation_witness :
    ((⟨2, [2]⟩ : SpotifySecret) ≠ ⟨1, [1]⟩)
    ∧ ((⟨3, [3]⟩ : SpotifySecret) ≠ ⟨1, [1]⟩)
    ∧ ((⟨3, [3]⟩ : SpotifySecret) ≠ ⟨2, [2]⟩)
    ∧ (fun k => k == 2) 0 = false ∧ (fun k => k == 2) 1 = false
    ∧ (fun k => k == 2) 2 = true
    ∧ getAccessTokenUrl false (fun k => k == 2) [⟨1, [1]⟩, ⟨2, [2]⟩, ⟨3, [3]⟩] none
        = ⟨Except.ok (TokenUrl.anon ⟨3, [3]⟩), 2, 0, 3⟩
    ∧ rotateSecrets (fun _ => true) 0 [⟨7, [7]⟩] = RotRes.success ⟨7, [7]⟩ 0 1
    ∧ (requestToken false (fun _ => true) [⟨7, [7]⟩] none none
        (Except.error fallbackFailedMsg)).fallbackRan = true := by
  have h7 : rotateSecrets (fun _ => true) 0 [⟨7, [7]⟩] = RotRes.success ⟨7, [7]⟩ 0 1 := by
    simp [rotateSecrets]
  refine ⟨by decide, by decide, by decide, by decide, by decide, by decide, ?_, h7, ?_⟩
  · exact C2_secret_rotation.1 _ _ _ _ none (by decide) (by decide) (by decide)
      (by decide) (by decide) (by decide)
  · exact (C2_secret_rotation.2 _ _ none _ _ _ _ h7).2.1

/-- C5, counterexample to the claim as stated: in client-credentials
mode a failed token exchange does NOT propagate an error immediately;
the HTML scrape fallback runs, and when it succeeds its token becomes
the result. -/
theorem C5_counterexample :
    (requestToken true (fun _ => false) [] none none
        (Except.ok ⟨"scraped", 99⟩)).tokenResult = Except.ok ⟨"scraped", 99⟩
    ∧ (requestToken true (fun _ => false) [] none none
        (Except.ok ⟨"scraped", 99⟩)).fallbackRan = true := by
  constructor <;> rfl

/-- C5, amended: in client-credentials mode a failure of the token
exchange triggers no TOTP machinery (no eviction, no refresh) but DOES
run the HTML scrape fallback, whose outcome — token or error — becomes
the outcome of the mint; the error propagates only when the scrape also
fails. -/
theorem C5_credentials_fallback :
    ∀ (stepOk : Nat → Bool) (pool : List SpotifySecret) (rr : Option (List SpotifySecret))
      (fb : Except String SP_ACCESS_TOKEN),
      requestToken true stepOk pool rr none fb = ⟨fb, 0, 0, true, 2⟩ := by
  intro stepOk pool rr fb
  rfl

/-- C1, counterexample to the claim as stated: in a run where token
minting exhausted every strategy (rotation over an empty unrefreshable
pool, then a failing HTML scrape), the resulting error does NOT
propagate out of getTrack — the operation returns null. -/
theorem C1_counterexample :
    reqAllFail.tokenResult = Except.error fallbackFailedMsg
    ∧ getTrack none 0 reqAllFail (some recTrack) = none := by
  have h : reqAllFail.tokenResult = Except.error fallbackFailedMsg := by
    simp [reqAllFail, requestToken, getAccessTokenUrl, rotateSecrets]
  refine ⟨h, ?_⟩
  simp [getTrack, fetchData, ensureValidToken, isTokenExpired, h]

/-- C1, amended: when the held token is expired and minting fails, the
error does propagate out of ensureValidToken into fetchData uncaught,
but every public operation catches it with its catch-all and returns
null — callers observe null, not the error. -/
theorem C1_auth_error_to_null :
    ∀ (req : RequestOutcome) (e : String) (tok : Option SP_ACCESS_TOKEN) (now : Int)
      (r1 : Option (List SpotifyTrack)) (r2 : Option SpotifyTrack)
      (r3 : Option PlaylistData) (r4 : Option AlbumData) (r5 : Option (List SpotifyTrack))
      (pid aid : String) (pg1 pg2 : List (PageResult (Option SpotifyTrack))),
      req.tokenResult = Except.error e →
      isTokenExpired tok now = true →
      (fetchData tok now req r1).fst = Except.error e
      ∧ search tok now req r1 = none
      ∧ getTrack tok now req r2 = none
      ∧ getPlaylist tok now req pid r3 pg1 = none
      ∧ getAlbum tok now req aid r4 pg2 = none
      ∧ (getRecommendationsT false tok now req r5).fst = none := by
  intro req e tok now r1 r2 r3 r4 r5 pid aid pg1 pg2 herr hexp
  have hfd : ∀ {α : Type} (r : Option α),
      fetchData tok now req r = (Except.error e, req.httpCalls) := by
    intro α r
    simp [fetchData, ensureValidToken, hexp, herr]
  refine ⟨?_, ?_, ?_, ?_, ?_, ?_⟩ <;>
    simp [search, getTrack, getPlaylist, getAlbum, getRecommendationsT, hfd]

/-- Witness for C1 amended, at the all-strategies-failed mint with an
absent held token. -/
theorem C1_auth_error_to_null_witness :
    reqAllFail.tokenResult = Except.error fallbackFailedMsg
    ∧ isTokenExpired none 0 = true
    ∧ ((fetchData none 0 reqAllFail (some ([] : List SpotifyTrack))).fst
          = Except.error fallbackFailedMsg
      ∧ search none 0 reqAllFail (some []) = none
      ∧ getTrack none 0 reqAllFail (some recTrack) = none
      ∧ getPlaylist none 0 reqAllFail ("p") (some ⟨metaC, [some recTrack], false⟩) [] = none
      ∧ getAlbum none 0 reqAllFail ("a")
          (some ⟨"A", [], [], "aid", "u", [some recTrack], false⟩) [] = none
      ∧ (getRecommendationsT false none 0 reqAllFail (some [recTrack])).fst = none) := by
  have h : reqAllFail.tokenResult = Except.error fallbackFailedMsg := by
    simp [reqAllFail, requestToken, getAccessTokenUrl, rotateSecrets]
  exact ⟨h, rfl,
    C1_auth_error_to_null reqAllFail fallbackFailedMsg none 0 (some []) (some recTrack)
      (some ⟨metaC, [some recTrack], false⟩) (some ⟨"A", [], [], "aid", "u", [some recTrack], false⟩)
      (some [recTrack]) "p" "a" [] [] h rfl⟩

/-- C8, counterexample to the claim as stated: under credentials mode
getRecommendations yields the null result — not an observable
unsupported-operation error — while the very same inputs yield hits in
anonymous mode; no error channel reaches the caller. -/
theorem C8_counterexample :
    getRecommendationsT true (some freshTok) 0 reqIdle (some [recTrack]) = (none, 0)
    ∧ getRecommendationsT false (some freshTok) 0 reqIdle (some [recTrack])
        = (some [mkHit recTrack], 1) := by
  constructor
  · rfl
  · simp [getRecommendationsT, fetchData, ensureValidToken, isTokenExpired, freshTok,
      recTrack]

/-- C8, amended: under credentials mode getRecommendations throws its
explicit unsupported-mode error before any HTTP request, but the
catch-all converts it to null: the caller receives null and zero HTTP
requests are issued. -/
theorem C8_recommendations_null_no_http :
    ∀ (tok : Option SP_ACCESS_TOKEN) (now : Int) (req : RequestOutcome)
      (httpRes : Option (List SpotifyTrack)),
      getRecommendationsT true tok now req httpRes = (none, 0) := by
  intro tok now req httpRes
  rfl

lemma keepTrack_some_elim (m : SpotifyTrack) (h : keepTrack (some m) = true) :
    (∃ s, m.name = some s ∧ s ≠ "") ∧ m.artists.isSome = true := by
  unfold keepTrack at h
  rw [Bool.and_eq_true] at h
  obtain ⟨hname, hart⟩ := h
  refine ⟨?_, hart⟩
  cases hm : m.name with
  | none => rw [hm] at hname; cases hname
  | some s =>
    rw [hm] at hname
    exact ⟨s, rfl, by simpa using hname⟩

lemma mem_shaped_keep (f : SpotifyTrack → TrackRecord)
    (hf : ∀ m, (f m).name = m.name ∧ (f m).artists = m.artists)
    (l : List (Option SpotifyTrack)) (t : TrackRecord)
    (ht : t ∈ (l.filter keepTrack).filterMap (fun o => o.map f)) :
    (∃ s, t.name = some s ∧ s ≠ "") ∧ t.artists.isSome = true := by
  rcases List.mem_filterMap.mp ht with ⟨o, ho, hmap⟩
  rcases List.mem_filter.mp ho with ⟨-, hkeep⟩
  cases o with
  | none => simp [keepTrack] at hkeep
  | some m =>
    simp only [Option.map_some'] at hmap
    obtain rfl : f m = t := Option.some.inj hmap
    obtain ⟨⟨s, hs, hse⟩, hart⟩ := keepTrack_some_elim m hkeep
    exact ⟨⟨s, by rw [(hf m).1, hs], hse⟩, by rw [(hf m).2]; exact hart⟩

lemma getPlaylist_tracks_eq (tok : Option SP_ACCESS_TOKEN) (now : Int)
    (req : RequestOutcome) (pid : String) (httpRes : Option PlaylistData)
    (pages : List (PageResult (Option SpotifyTrack))) (r : PlaylistRecord)
    (h : getPlaylist tok now req pid httpRes pages = some r) :
    ∃ l, r.tracks = shapeItems l := by
  unfold getPlaylist at h
  cases hfd : fetchData tok now req httpRes with
  | mk res n =>
    rw [hfd] at h
    cases res with
    | error e => cases h
    | ok d =>
      by_cases h1 : d.items.isEmpty
      · simp only [h1, if_true] at h; cases h
      · simp only [h1, if_false, Bool.false_eq_true] at h
        by_cases h2 : (shapeItems (d.items ++ (if d.next then followPages pages else []))).isEmpty
        · simp only [h2, if_true] at h; cases h
        · simp only [h2, if_false, Bool.false_eq_true] at h
          refine ⟨d.items ++ (if d.next then followPages pages else []), ?_⟩
          rw [← Option.some.inj h]

lemma getAlbum_tracks_eq (tok : Option SP_ACCESS_TOKEN) (now : Int)
    (req : RequestOutcome) (aid : String) (httpRes : Option AlbumData)
    (pages : List (PageResult (Option SpotifyTrack))) (r : PlaylistRecord)
    (h : getAlbum tok now req aid httpRes pages = some r) :
    ∃ imgs l, r.tracks = shapeAlbumItems imgs l := by
  unfold getAlbum at h
  cases hfd : fetchData tok now req httpRes with
  | mk res n =>
    rw [hfd] at h
    cases res with
    | error e => cases h
    | ok d =>
      by_cases h1 : d.items.isEmpty
      · simp only [h1, if_true] at h; cases h
      · simp only [h1, if_false, Bool.false_eq_true] at h
        by_cases h2 : (shapeAlbumItems d.images
            (d.items ++ (if d.next then followPages pages else []))).isEmpty
        · simp only [h2, if_true] at h; cases h
        · simp only [h2, if_false, Bool.false_eq_true] at h
          refine ⟨d.images, d.items ++ (if d.next then followPages pages else []), ?_⟩
          rw [← Option.some.inj h]

/-- C4, counterexample to the claim as stated: search performs NO
filtering — a hit with an empty name is emitted as is — and the
playlist filter keeps a present-but-empty artist array, so a record
with an empty artist list is emitted. -/
theorem C4_counterexample :
    search (some freshTok) 0 reqIdle (some [emptyNameTrack])
      = some [⟨some (""), 1, "Artist", trackUrlOf ("tid2"), none⟩]
    ∧ ∃ r, getPlaylist (some freshTok) 0 reqIdle ("p")
          (some ⟨metaC, [some emptyArtistsTrack], false⟩) [] = some r
        ∧ r.tracks = [⟨some ("x"), 1, some [], none, "tid3", []⟩] := by
  constructor
  · rfl
  · exact ⟨_, rfl, rfl⟩

/-- C4, amended: the name-and-artists filter applies only to the tracks
of getPlaylist and getAlbum, and it checks that the artist FIELD is
present (an empty artist array passes); every track record they emit
has a nonempty name and a present artists field.  search and getTrack
do not filter at all. -/
theorem C4_filter_scope (tok : Option SP_ACCESS_TOKEN) (now : Int) (req : RequestOutcome)
    (pid aid : String) (hp : Option PlaylistData) (ha : Option AlbumData)
    (pgs1 pgs2 : List (PageResult (Option SpotifyTrack))) (r1 r2 : PlaylistRecord) :
    (getPlaylist tok now req pid hp pgs1 = some r1 →
      ∀ t ∈ r1.tracks, (∃ s, t.name = some s ∧ s ≠ "") ∧ t.artists.isSome = true)
    ∧ (getAlbum tok now req aid ha pgs2 = some r2 →
      ∀ t ∈ r2.tracks, (∃ s, t.name = some s ∧ s ≠ "") ∧ t.artists.isSome = true) := by
  constructor
  · intro h t ht
    obtain ⟨l, hl⟩ := getPlaylist_tracks_eq tok now req pid hp pgs1 r1 h
    rw [hl] at ht
    exact mem_shaped_keep shapeTrack (fun m => ⟨rfl, rfl⟩) l t ht
  · intro h t ht
    obtain ⟨imgs, l, hl⟩ := getAlbum_tracks_eq tok now req aid ha pgs2 r2 h
    rw [hl] at ht
    exact mem_shaped_keep (shapeAlbumTrack imgs) (fun m => ⟨rfl, rfl⟩) l t ht

/-- Witness for C4 amended at a one-track playlist and album. -/
theorem C4_filter_scope_witness :
    getPlaylist (some freshTok) 0 reqIdle ("p") (some ⟨metaC, [some recTrack], false⟩) []
      = some ⟨"PL", "Owner", none, "plid", "u", [shapeTrack recTrack]⟩
    ∧ ∀ t ∈ [shapeTrack recTrack],
        (∃ s, t.name = some s ∧ s ≠ "") ∧ t.artists.isSome = true := by
  have h : getPlaylist (some freshTok) 0 reqIdle ("p")
      (some ⟨metaC, [some recTrack], false⟩) []
      = some ⟨"PL", "Owner", none, "plid", "u", [shapeTrack recTrack]⟩ := rfl
  exact ⟨h, (C4_filter_scope (some freshTok) 0 reqIdle ("p") ("a")
    (some ⟨metaC, [some recTrack], false⟩) none [] [] _ ⟨"", "", none, "", "", []⟩).1 h⟩

lemma followPages_map_ok_err {α : Type} (itemss : List (List α)) (qs : List (PageResult α)) :
    followPages ((itemss.map (fun l => PageResult.ok l true)) ++ (PageResult.err :: qs))
      = itemss.flatten := by
  induction itemss with
  | nil => simp [followPages]
  | cons l ls ih => simp [followPages, ih]

lemma followPages_two {α : Type} (b c : List α) :
    followPages [PageResult.ok b true, PageResult.ok c false] = b ++ c := by
  simp [followPages]

lemma filterKeep_shape_length (f : SpotifyTrack → TrackRecord) :
    ∀ (l : List (Option SpotifyTrack)), (∀ o ∈ l, keepTrack o = true) →
      ((l.filter keepTrack).filterMap (fun o => o.map f)).length = l.length := by
  intro l
  induction l with
  | nil => intro _; rfl
  | cons o rest ih =>
    intro h
    have ho := h o (List.mem_cons_self o rest)
    have hrest : ∀ x ∈ rest, keepTrack x = true := fun x hx => h x (List.mem_cons_of_mem o hx)
    cases o with
    | none => simp [keepTrack] at ho
    | some m =>
      simp only [List.filter_cons, ho, if_true, List.filterMap_cons, Option.map_some']
      rw [List.length_cons, List.length_cons, ih hrest]

lemma shapeItems_all_keep_length (l : List (Option SpotifyTrack))
    (h : ∀ o ∈ l, keepTrack o = true) : (shapeItems l).length = l.length := by
  unfold shapeItems
  exact filterKeep_shape_length shapeTrack l h

lemma shapeAlbumItems_all_keep_length (imgs : List RawImage) (l : List (Option SpotifyTrack))
    (h : ∀ o ∈ l, keepTrack o = true) : (shapeAlbumItems imgs l).length = l.length := by
  unfold shapeAlbumItems
  exact filterKeep_shape_length (shapeAlbumTrack imgs) l h

lemma isEmpty_false_of_ne_nil {α : Type} (l : List α) (h : l ≠ []) : l.isEmpty = false := by
  cases l with
  | nil => exact absurd rfl h
  | cons a t => rfl

lemma shapeItems_isEmpty_false (l : List (Option SpotifyTrack))
    (hk : ∀ o ∈ l, keepTrack o = true) (hne : l ≠ []) :
    (shapeItems l).isEmpty = false := by
  apply isEmpty_false_of_ne_nil
  intro hs
  have := shapeItems_all_keep_length l hk
  rw [hs] at this
  cases l with
  | nil => exact hne rfl
  | cons a t => simp at this

lemma shapeAlbumItems_isEmpty_false (imgs : List RawImage) (l : List (Option SpotifyTrack))
    (hk : ∀ o ∈ l, keepTrack o = true) (hne : l ≠ []) :
    (shapeAlbumItems imgs l).isEmpty = false := by
  apply isEmpty_false_of_ne_nil
  intro hs
  have := shapeAlbumItems_all_keep_length imgs l hk
  rw [hs] at this
  cases l with
  | nil => exact hne rfl
  | cons a t => simp at this

/-- C7, confirmed: pagination follows the cursors sequentially and
concatenates the page items in upstream order; a failed fetch at page N
stops pagination and the result keeps the items of pages 1..N-1 as a
record, not an error; and with pages of 100, 100 and 37 valid entries
the playlist and album results hold exactly 237 records in order. -/
theorem C7_pagination :
    (∀ (tk : SP_ACCESS_TOKEN) (now : Int) (req : RequestOutcome) (meta : PlaylistMeta)
        (pid : String) (first : List (Option SpotifyTrack))
        (itemss : List (List (Option SpotifyTrack)))
        (qs : List (PageResult (Option SpotifyTrack))),
        isTokenExpired (some tk) now = false →
        first ≠ [] →
        (∀ o ∈ first ++ itemss.flatten, keepTrack o = true) →
        ∃ r, getPlaylist (some tk) now req pid (some ⟨meta, first, true⟩)
              ((itemss.map (fun l => PageResult.ok l true)) ++ (PageResult.err :: qs))
            = some r
          ∧ r.tracks = shapeItems (first ++ itemss.flatten))
    ∧ (∀ (tk : SP_ACCESS_TOKEN) (now : Int) (req : RequestOutcome) (meta : PlaylistMeta)
        (pid : String) (a b c : List (Option SpotifyTrack)),
        isTokenExpired (some tk) now = false →
        a.length = 100 → b.length = 100 → c.length = 37 →
        (∀ o ∈ a ++ (b ++ c), keepTrack o = true) →
        ∃ r, getPlaylist (some tk) now req pid (some ⟨meta, a, true⟩)
              [PageResult.ok b true, PageResult.ok c false] = some r
          ∧ r.tracks = shapeItems (a ++ (b ++ c)) ∧ r.tracks.length = 237)
    ∧ (∀ (tk : SP_ACCESS_TOKEN) (now : Int) (req : RequestOutcome) (aname aid aurl : String)
        (anames : List String) (imgs : List RawImage) (first : List (Option SpotifyTrack))
        (itemss : List (List (Option SpotifyTrack)))
        (qs : List (PageResult (Option SpotifyTrack))),
        isTokenExpired (some tk) now = false →
        first ≠ [] →
        (∀ o ∈ first ++ itemss.flatten, keepTrack o = true) →
        ∃ r, getAlbum (some tk) now req aid
              (some ⟨aname, anames, imgs, aid, aurl, first, true⟩)
              ((itemss.map (fun l => PageResult.ok l true)) ++ (PageResult.err :: qs))
            = some r
          ∧ r.tracks = shapeAlbumItems imgs (first ++ itemss.flatten))
    ∧ ∀ (tk : SP_ACCESS_TOKEN) (now : Int) (req : RequestOutcome) (aname aid aurl : String)
        (anames : List String) (imgs : List RawImage) (a b c : List (Option SpotifyTrack)),
        isTokenExpired (some tk) now = false →
        a.length = 100 → b.length = 100 → c.length = 37 →
        (∀ o ∈ a ++ (b ++ c), keepTrack o = true) →
        ∃ r, getAlbum (some tk) now req aid (some ⟨aname, anames, imgs, aid, aurl, a, true⟩)
              [PageResult.ok b true, PageResult.ok c false] = some r
          ∧ r.tracks = shapeAlbumItems imgs (a ++ (b ++ c)) ∧ r.tracks.length = 237 := by
  refine ⟨?_, ?_, ?_, ?_⟩
  · intro tk now req meta pid first itemss qs hexp hfirst hkeep
    have hfp := followPages_map_ok_err itemss qs
    have hfe := isEmpty_false_of_ne_nil first hfirst
    have hne : first ++ itemss.flatten ≠ [] := by
      cases first with
      | nil => exact absurd rfl hfirst
      | cons x xs => simp
    have htr := shapeItems_isEmpty_false _ hkeep hne
    refine ⟨⟨meta.name, meta.owner,
      meta.images.head?.bind (fun im => if im.url = "" then none else some im.url),
      meta.id,
      (if meta.spotifyUrl = "" then ("https://open.spotify.com/playlist/" ++ pid)
       else meta.spotifyUrl), shapeItems (first ++ itemss.flatten)⟩, ?_, rfl⟩
    simp [getPlaylist, fetchData, ensureValidToken, hexp, hfe, hfp, htr]
  · intro tk now req meta pid a b c hexp ha hb hc hkeep
    have hfp := followPages_two b c
    have hane : a ≠ [] := by intro h; rw [h] at ha; simp at ha
    have hfe := isEmpty_false_of_ne_nil a hane
    have hne : a ++ (b ++ c) ≠ [] := by
      cases a with
      | nil => exact absurd rfl hane
      | cons x xs => simp
    have htr := shapeItems_isEmpty_false _ hkeep hne
    have hlen : (shapeItems (a ++ (b ++ c))).length = 237 := by
      rw [shapeItems_all_keep_length _ hkeep]
      simp [ha, hb, hc]
    refine ⟨⟨meta.name, meta.owner,
      meta.images.head?.bind (fun im => if im.url = "" then none else some im.url),
      meta.id,
      (if meta.spotifyUrl = "" then ("https://open.spotify.com/playlist/" ++ pid)
       else meta.spotifyUrl), shapeItems (a ++ (b ++ c))⟩, ?_, rfl, hlen⟩
    simp [getPlaylist, fetchData, ensureValidToken, hexp, hfe, hfp, htr]
  · intro tk now req aname aid aurl anames imgs first itemss qs hexp hfirst hkeep
    have hfp := followPages_map_ok_err itemss qs
    have hfe := isEmpty_false_of_ne_nil first hfirst
    have hne : first ++ itemss.flatten ≠ [] := by
      cases first with
      | nil => exact absurd rfl hfirst
      | cons x xs => simp
    have htr := shapeAlbumItems_isEmpty_false imgs _ hkeep hne
    refine ⟨⟨aname, String.intercalate (", ") anames,
      imgs.head?.bind (fun im => if im.url = "" then none else some im.url),
      aid,
      (if aurl = "" then ("https://open.spotify.com/album/" ++ aid) else aurl), shapeAlbumItems imgs (first ++ itemss.flatten)⟩, ?_, rfl⟩
    simp [getAlbum, fetchData, ensureValidToken, hexp, hfe, hfp, htr]
  · intro tk now req aname aid aurl anames imgs a b c hexp ha hb hc hkeep
    have hfp := followPages_two b c
    have hane : a ≠ [] := by intro h; rw [h] at ha; simp at ha
    have hfe := isEmpty_false_of_ne_nil a hane
    have hne : a ++ (b ++ c) ≠ [] := by
      cases a with
      | nil => exact absurd rfl hane
      | cons x xs => simp
    have htr := shapeAlbumItems_isEmpty_false imgs _ hkeep hne
    have hlen : (shapeAlbumItems imgs (a ++ (b ++ c))).length = 237 := by
      rw [shapeAlbumItems_all_keep_length imgs _ hkeep]
      simp [ha, hb, hc]
    refine ⟨⟨aname, String.intercalate (", ") anames,
      imgs.head?.bind (fun im => if im.url = "" then none else some im.url),
      aid,
      (if aurl = "" then ("https://open.spotify.com/album/" ++ aid) else aurl), shapeAlbumItems imgs (a ++ (b ++ c))⟩, ?_, rfl, hlen⟩
    simp [getAlbum, fetchData, ensureValidToken, hexp, hfe, hfp, htr]

/-- Witness for C7 at pages of 100, 100 and 37 copies of a valid
track. -/
theorem C7_pagination_witness :
    isTokenExpired (some freshTok) 0 = false
    ∧ (List.replicate 100 (some recTrack)).length = 100
    ∧ (List.replicate 37 (some recTrack)).length = 37
    ∧ ∃ r, getPlaylist (some freshTok) 0 reqIdle ("p")
          (some ⟨metaC, List.replicate 100 (some recTrack), true⟩)
          [PageResult.ok (List.replicate 100 (some recTrack)) true,
           PageResult.ok (List.replicate 37 (some recTrack)) false] = some r
        ∧ r.tracks = shapeItems (List.replicate 100 (some recTrack)
            ++ (List.replicate 100 (some recTrack) ++ List.replicate 37 (some recTrack)))
        ∧ r.tracks.length = 237 := by
  have hkeep : ∀ o ∈ List.replicate 100 (some recTrack)
      ++ (List.replicate 100 (some recTrack) ++ List.replicate 37 (some recTrack)),
      keepTrack o = true := by
    intro o ho
    simp only [List.mem_append, List.mem_replicate] at ho
    have : o = some recTrack := by tauto
    rw [this]
    rfl
  refine ⟨by decide, by simp, by simp, ?_⟩
  exact C7_pagination.2.1 freshTok 0 reqIdle metaC ("p") _ _ _ (by decide) (by simp)
    (by simp) (by simp) hkeep

